import Mathlib

/-!
Verification of the SMPP server core (smpp-server.py): the PDU codec
(`SMPPPDU.encode`, `parse_pdu`), the command registry (`SMPP_COMMANDS`),
and the per-connection dispatch logic of `SMPPServerProtocol.data_received`
with its handlers.

Bytes are modelled as `Nat` values (0..255 on real wire data); 32-bit
fields are `Nat` with explicit bounds where Python `struct.pack` with the
format character I would raise outside [0, 2^32).  Numeric literals
16777216, 65536, 4294967296 stand for 2^24, 2^16, 2^32.
-/

set_option maxRecDepth 4096
set_option linter.unusedVariables false

/-- One SMPP protocol data unit, mirroring class `SMPPPDU` of the source:
`command_id`, `command_status`, `sequence_number` and a raw byte `body`. -/
structure SMPPPDU where
  command_id : Nat
  command_status : Nat
  sequence_number : Nat
  body : List Nat
deriving Repr, DecidableEq

/-- The command registry, mirroring the `SMPP_COMMANDS` dict (lines 10-24). -/
def SMPP_COMMANDS : List (String × Nat) := [
  ("bind_receiver", 0x00000001),
  ("bind_transmitter", 0x00000002),
  ("bind_transceiver", 0x00000009),
  ("submit_sm", 0x00000004),
  ("deliver_sm", 0x00000005),
  ("unbind", 0x00000006),
  ("generic_nack", 0x80000000),
  ("bind_receiver_resp", 0x80000001),
  ("bind_transmitter_resp", 0x80000002),
  ("bind_transceiver_resp", 0x80000009),
  ("submit_sm_resp", 0x80000004),
  ("deliver_sm_resp", 0x80000005),
  ("unbind_resp", 0x80000006)]

/-- Dictionary access `SMPP_COMMANDS[name]`.  Every name used by the source
is present, so the default 0 of `getD` is never reached. -/
def cmd (name : String) : Nat := (SMPP_COMMANDS.lookup name).getD 0

/-- Big-endian 4-byte encoding of one 32-bit field, as laid out by
`struct.pack` with network byte order. -/
def pack32 (n : Nat) : List Nat :=
  [n / 16777216 % 256, n / 65536 % 256, n / 256 % 256, n % 256]

/-- Big-endian 32-bit value of four bytes, as read by `struct.unpack`. -/
def unpack32 (b0 b1 b2 b3 : Nat) : Nat :=
  b0 * 16777216 + b1 * 65536 + b2 * 256 + b3

/-- `SMPPPDU.encode` (lines 33-42): 16-byte header holding
`16 + len(body)`, `command_id`, `command_status`, `sequence_number`,
followed by the body verbatim.  `struct.pack` raises `struct.error` when a
field does not fit an unsigned 32-bit integer, modelled as `none`. -/
def SMPPPDU.encode (p : SMPPPDU) : Option (List Nat) :=
  if 16 + p.body.length < 4294967296 ∧ p.command_id < 4294967296 ∧
      p.command_status < 4294967296 ∧ p.sequence_number < 4294967296 then
    some (pack32 (16 + p.body.length) ++ pack32 p.command_id ++
      pack32 p.command_status ++ pack32 p.sequence_number ++ p.body)
  else
    none

/-- `SMPPServerProtocol.parse_pdu` (lines 79-92).  The source raises
`ValueError` exactly when fewer than 16 bytes are present, matched here by
the catch-all pattern.  The Python slice `data[16:length]` equals
`rest.take (length - 16)` under truncated Nat subtraction: empty when the
declared length is at most 16, clipped to the available bytes otherwise.
The declared length field is used only for that slice; it is never
validated. -/
def parse_pdu (data : List Nat) : Except String SMPPPDU :=
  match data with
  | b0 :: b1 :: b2 :: b3 :: b4 :: b5 :: b6 :: b7 ::
    b8 :: b9 :: b10 :: b11 :: b12 :: b13 :: b14 :: b15 :: rest =>
    Except.ok (SMPPPDU.mk (unpack32 b4 b5 b6 b7) (unpack32 b8 b9 b10 b11)
      (unpack32 b12 b13 b14 b15) (rest.take (unpack32 b0 b1 b2 b3 - 16)))
  | _ => Except.error "PDU too short"

/-- The per-connection mutable state the dispatch logic reads and writes:
the `bound` flag of `SMPPServerProtocol` and whether `transport.close()`
has been called. -/
structure ConnState where
  bound : Bool
  closed : Bool
deriving Repr, DecidableEq

/-- State of a freshly accepted connection (`__init__` / `connection_made`):
not bound, transport open. -/
def initState : ConnState := ConnState.mk false false

/-- `SMPPServerProtocol.authenticate` (lines 127-130): accepts every PDU. -/
def authenticate (pdu : SMPPPDU) : Bool := true

/-- The literal `b"smppserver\x00"` written as the body of every successful
bind response (line 116). -/
def systemIdBody : List Nat := [115, 109, 112, 112, 115, 101, 114, 118, 101, 114, 0]

/-- The literal `b"message_id_123\x00"` written as the body of
`submit_sm_resp` (line 146). -/
def messageIdBody : List Nat :=
  [109, 101, 115, 115, 97, 103, 101, 95, 105, 100, 95, 49, 50, 51, 0]

/-- The response-id dict of `handle_bind` (lines 106-110).  The source
indexes it with `pdu.command_id`; a `KeyError` is impossible because
`handle_bind` is only reached for the three bind request ids.  The 0 of
the final branch is that unreachable case. -/
def respCommandId (c : Nat) : Nat :=
  if c = cmd "bind_receiver" then cmd "bind_receiver_resp"
  else if c = cmd "bind_transmitter" then cmd "bind_transmitter_resp"
  else if c = cmd "bind_transceiver" then cmd "bind_transceiver_resp"
  else 0

/-- `SMPPServerProtocol.send_generic_nack` (lines 161-168): the PDU written
to the transport. -/
def send_generic_nack (pdu : SMPPPDU) (status : Nat) : SMPPPDU :=
  SMPPPDU.mk (cmd "generic_nack") status pdu.sequence_number []

/-- `SMPPServerProtocol.handle_bind` (lines 101-125): on authentication
success sets `bound = True` and writes the matching response with status 0
and body `systemIdBody`; on failure leaves the state alone and writes a
`generic_nack` with status 0x0D.  The `is_transceiver` argument is unused
by the source as well.  Returns the new state and the written PDUs. -/
def handle_bind (s : ConnState) (pdu : SMPPPDU) (is_transceiver : Bool) :
    ConnState × List SMPPPDU :=
  if authenticate pdu then
    (ConnState.mk true s.closed,
      [SMPPPDU.mk (respCommandId pdu.command_id) 0 pdu.sequence_number systemIdBody])
  else
    (s, [SMPPPDU.mk (cmd "generic_nack") 0x0000000D pdu.sequence_number []])

/-- `SMPPServerProtocol.handle_submit_sm` (lines 132-148): a `generic_nack`
with status 0x0B when not bound, otherwise `submit_sm_resp` with status 0
and the fixed message id body. -/
def handle_submit_sm (s : ConnState) (pdu : SMPPPDU) : ConnState × List SMPPPDU :=
  if s.bound = false then
    (s, [send_generic_nack pdu 0x0000000B])
  else
    (s, [SMPPPDU.mk (cmd "submit_sm_resp") 0 pdu.sequence_number messageIdBody])

/-- `SMPPServerProtocol.handle_unbind` (lines 150-159): clears `bound`,
writes `unbind_resp` with status 0, then calls `transport.close()`. -/
def handle_unbind (s : ConnState) (pdu : SMPPPDU) : ConnState × List SMPPPDU :=
  (ConnState.mk false true, [SMPPPDU.mk (cmd "unbind_resp") 0 pdu.sequence_number []])

/-- The if/elif dispatch chain of `data_received` (lines 62-73) applied to
an already parsed PDU: routes to the handler for the five request ids, and
answers every other command id with `generic_nack` status 0x03. -/
def dispatch_pdu (s : ConnState) (pdu : SMPPPDU) : ConnState × List SMPPPDU :=
  if pdu.command_id = cmd "bind_receiver" then handle_bind s pdu false
  else if pdu.command_id = cmd "bind_transmitter" then handle_bind s pdu false
  else if pdu.command_id = cmd "bind_transceiver" then handle_bind s pdu true
  else if pdu.command_id = cmd "submit_sm" then handle_submit_sm s pdu
  else if pdu.command_id = cmd "unbind" then handle_unbind s pdu
  else (s, [send_generic_nack pdu 0x00000003])

/-- `SMPPServerProtocol.data_received` (lines 57-77): parse the chunk, then
dispatch; any exception (only the short-data `ValueError` of `parse_pdu`
can occur) is caught and answered by `transport.close()` with nothing
written. -/
def data_received (s : ConnState) (data : List Nat) : ConnState × List SMPPPDU :=
  match parse_pdu data with
  | Except.error _ => (ConnState.mk s.bound true, [])
  | Except.ok pdu => dispatch_pdu s pdu

/-- The asyncio event loop around one connection: successive received
chunks are fed to `data_received`; once `transport.close()` has been
called the loop delivers no further data to the protocol, so no further
PDU is processed on that connection. -/
def connRun (s : ConnState) : List (List Nat) → ConnState × List SMPPPDU
  | [] => (s, [])
  | d :: ds =>
    if s.closed then (s, [])
    else
      let r1 := data_received s d
      let r2 := connRun r1.1 ds
      (r2.1, r1.2 ++ r2.2)

/-- Reconstruction of a 32-bit value from its big-endian bytes. -/
theorem unpack_pack (n : Nat) (h : n < 4294967296) :
    unpack32 (n / 16777216 % 256) (n / 65536 % 256) (n / 256 % 256) (n % 256) = n := by
  unfold unpack32
  omega

/-- Registry value of `bind_receiver`. -/
theorem cmd_bind_receiver : cmd "bind_receiver" = 1 := by decide

/-- Registry value of `bind_transmitter`. -/
theorem cmd_bind_transmitter : cmd "bind_transmitter" = 2 := by decide

/-- Registry value of `bind_transceiver`. -/
theorem cmd_bind_transceiver : cmd "bind_transceiver" = 9 := by decide

/-- Registry value of `submit_sm`. -/
theorem cmd_submit_sm : cmd "submit_sm" = 4 := by decide

/-- Registry value of `deliver_sm`. -/
theorem cmd_deliver_sm : cmd "deliver_sm" = 5 := by decide

/-- Registry value of `unbind`. -/
theorem cmd_unbind : cmd "unbind" = 6 := by decide

/-- Registry value of `generic_nack`. -/
theorem cmd_generic_nack : cmd "generic_nack" = 2147483648 := by decide

/-- Registry value of `bind_transceiver_resp`. -/
theorem cmd_bind_transceiver_resp : cmd "bind_transceiver_resp" = 2147483657 := by decide

/-- Registry value of `submit_sm_resp`. -/
theorem cmd_submit_sm_resp : cmd "submit_sm_resp" = 2147483652 := by decide

/-- Registry value of `unbind_resp`. -/
theorem cmd_unbind_resp : cmd "unbind_resp" = 2147483654 := by decide

/-- A chunk of fewer than 16 bytes makes `parse_pdu` raise. -/
theorem parse_pdu_short (data : List Nat) (h : data.length < 16) :
    parse_pdu data = Except.error "PDU too short" := by
  rcases data with _ | ⟨a0, data⟩
  · rfl
  rcases data with _ | ⟨a1, data⟩
  · rfl
  rcases data with _ | ⟨a2, data⟩
  · rfl
  rcases data with _ | ⟨a3, data⟩
  · rfl
  rcases data with _ | ⟨a4, data⟩
  · rfl
  rcases data with _ | ⟨a5, data⟩
  · rfl
  rcases data with _ | ⟨a6, data⟩
  · rfl
  rcases data with _ | ⟨a7, data⟩
  · rfl
  rcases data with _ | ⟨a8, data⟩
  · rfl
  rcases data with _ | ⟨a9, data⟩
  · rfl
  rcases data with _ | ⟨a10, data⟩
  · rfl
  rcases data with _ | ⟨a11, data⟩
  · rfl
  rcases data with _ | ⟨a12, data⟩
  · rfl
  rcases data with _ | ⟨a13, data⟩
  · rfl
  rcases data with _ | ⟨a14, data⟩
  · rfl
  rcases data with _ | ⟨a15, data⟩
  · rfl
  simp only [List.length_cons] at h
  omega

/-- C1: decoding the bytes produced by `encode` yields a PDU equal to the
original: whenever `encode` succeeds on a PDU (its 32-bit fields in range
and the body short enough for the length field), `parse_pdu` on the
resulting bytes returns exactly that PDU. -/
theorem decode_encode_roundtrip (p : SMPPPDU) (bs : List Nat)
    (h : p.encode = some bs) : parse_pdu bs = Except.ok p := by
  obtain ⟨cid, cst, seq, body⟩ := p
  unfold SMPPPDU.encode at h
  split at h
  · next hc =>
    obtain ⟨h1, h2, h3, h4⟩ := hc
    injection h with hbs
    subst hbs
    simp only [pack32, List.cons_append, List.nil_append, parse_pdu]
    rw [unpack_pack _ h1, unpack_pack _ h2, unpack_pack _ h3, unpack_pack _ h4]
    simp
  · exact absurd h (by simp)

/-- C1 witness: the round trip evaluated on a concrete PDU. -/
theorem decode_encode_roundtrip_witness :
    parse_pdu [0, 0, 0, 17, 0, 0, 0, 9, 0, 0, 0, 0, 0, 0, 0, 1, 7] =
      Except.ok (SMPPPDU.mk 9 0 1 [7]) :=
  decode_encode_roundtrip (SMPPPDU.mk 9 0 1 [7])
    [0, 0, 0, 17, 0, 0, 0, 9, 0, 0, 0, 0, 0, 0, 0, 1, 7] (by decide)

/-- C2: every response the dispatch chain produces, for every session state
and every incoming PDU, carries the sequence number of the triggering
request. -/
theorem response_echoes_sequence (s : ConnState) (pdu resp : SMPPPDU)
    (h : resp ∈ (dispatch_pdu s pdu).2) :
    resp.sequence_number = pdu.sequence_number := by
  unfold dispatch_pdu handle_bind handle_submit_sm handle_unbind
    send_generic_nack authenticate at h
  repeat' split at h
  all_goals simp_all

/-- C2 witness: the nack answering an unknown command echoes its sequence
number 42. -/
theorem response_echoes_sequence_witness :
    (SMPPPDU.mk 2147483648 3 42 []).sequence_number =
      (SMPPPDU.mk 99 0 42 []).sequence_number :=
  response_echoes_sequence initState (SMPPPDU.mk 99 0 42 [])
    (SMPPPDU.mk 2147483648 3 42 []) (by decide)

/-- C3: a `submit_sm` dispatched while not bound yields exactly one
`generic_nack` with status 0x0B echoing the sequence number, and the
session state is returned unchanged. -/
theorem submit_sm_unbound_nack (s : ConnState) (pdu : SMPPPDU)
    (hb : s.bound = false) (hc : pdu.command_id = cmd "submit_sm") :
    dispatch_pdu s pdu =
      (s, [SMPPPDU.mk (cmd "generic_nack") 0x0000000B pdu.sequence_number []]) := by
  simp [dispatch_pdu, handle_submit_sm, send_generic_nack, hb, hc,
    cmd_bind_receiver, cmd_bind_transmitter, cmd_bind_transceiver, cmd_submit_sm]

/-- C3 witness: concrete unbound `submit_sm` with sequence number 7. -/
theorem submit_sm_unbound_nack_witness :
    dispatch_pdu initState (SMPPPDU.mk 4 0 7 [1, 2]) =
      (initState, [SMPPPDU.mk (cmd "generic_nack") 0x0000000B 7 []]) :=
  submit_sm_unbound_nack initState (SMPPPDU.mk 4 0 7 [1, 2]) rfl (by decide)

/-- C4 counterexample: a 16-byte frame whose declared length field is 0
(less than 16) is NOT rejected: `parse_pdu` returns a PDU (command id 5,
sequence 7, empty body), and `data_received` dispatches it, writing a
`generic_nack` response and leaving the connection open. -/
theorem short_length_field_dispatched :
    parse_pdu [0, 0, 0, 0, 0, 0, 0, 5, 0, 0, 0, 0, 0, 0, 0, 7] =
      Except.ok (SMPPPDU.mk 5 0 7 []) ∧
    data_received initState [0, 0, 0, 0, 0, 0, 0, 5, 0, 0, 0, 0, 0, 0, 0, 7] =
      (initState, [SMPPPDU.mk 2147483648 3 7 []]) :=
  ⟨rfl, rfl⟩

/-- C4 amended: only a frame of fewer than 16 total bytes fails to decode,
closing the connection with no response written; when at least 16 bytes
are present a declared length field below 16 is not validated — the frame
decodes to a PDU with an empty body (and is dispatched normally). -/
theorem short_frame_closes_length_not_checked :
    (∀ (s : ConnState) (data : List Nat), data.length < 16 →
      data_received s data = (ConnState.mk s.bound true, [])) ∧
    (∀ b0 b1 b2 b3 b4 b5 b6 b7 b8 b9 b10 b11 b12 b13 b14 b15 : Nat,
      ∀ rest : List Nat, unpack32 b0 b1 b2 b3 < 16 →
      parse_pdu (b0 :: b1 :: b2 :: b3 :: b4 :: b5 :: b6 :: b7 ::
          b8 :: b9 :: b10 :: b11 :: b12 :: b13 :: b14 :: b15 :: rest) =
        Except.ok (SMPPPDU.mk (unpack32 b4 b5 b6 b7) (unpack32 b8 b9 b10 b11)
          (unpack32 b12 b13 b14 b15) [])) := by
  constructor
  · intro s data h
    unfold data_received
    rw [parse_pdu_short data h]
  · intro b0 b1 b2 b3 b4 b5 b6 b7 b8 b9 b10 b11 b12 b13 b14 b15 rest h
    simp only [parse_pdu]
    rw [Nat.sub_eq_zero_of_le (by omega), List.take_zero]

/-- C4 amended witness: a 3-byte chunk closes the connection silently. -/
theorem short_frame_closes_length_not_checked_witness :
    data_received initState [1, 2, 3] = (ConnState.mk false true, []) :=
  short_frame_closes_length_not_checked.1 initState [1, 2, 3] (by decide)

/-- C5 counterexample: a 16-byte buffer whose declared length field is 20
(more than buffered) does NOT signal a need for more data: `parse_pdu`
returns a PDU with a body of 0 bytes, shorter than the 4 bytes the length
field promises, and `data_received` dispatches it, producing a response. -/
theorem truncated_frame_dispatched :
    parse_pdu [0, 0, 0, 20, 0, 0, 0, 4, 0, 0, 0, 0, 0, 0, 0, 9] =
      Except.ok (SMPPPDU.mk 4 0 9 []) ∧
    data_received initState [0, 0, 0, 20, 0, 0, 0, 4, 0, 0, 0, 0, 0, 0, 0, 9] =
      (initState, [SMPPPDU.mk 2147483648 11 9 []]) :=
  ⟨rfl, rfl⟩

/-- C5 amended: there is no more-data signal.  A buffer of fewer than 16
bytes raises and the connection is closed with no PDU produced; a buffer
of at least 16 bytes but fewer than its declared length L decodes to a PDU
whose body is the whole remainder `data[16:]` — shorter than the L - 16
bytes the length field declares — and that PDU is dispatched. -/
theorem incomplete_frame_not_detected :
    (∀ (s : ConnState) (data : List Nat), data.length < 16 →
      data_received s data = (ConnState.mk s.bound true, [])) ∧
    (∀ b0 b1 b2 b3 b4 b5 b6 b7 b8 b9 b10 b11 b12 b13 b14 b15 : Nat,
      ∀ rest : List Nat, 16 + rest.length < unpack32 b0 b1 b2 b3 →
      parse_pdu (b0 :: b1 :: b2 :: b3 :: b4 :: b5 :: b6 :: b7 ::
          b8 :: b9 :: b10 :: b11 :: b12 :: b13 :: b14 :: b15 :: rest) =
        Except.ok (SMPPPDU.mk (unpack32 b4 b5 b6 b7) (unpack32 b8 b9 b10 b11)
          (unpack32 b12 b13 b14 b15) rest)) := by
  constructor
  · intro s data h
    unfold data_received
    rw [parse_pdu_short data h]
  · intro b0 b1 b2 b3 b4 b5 b6 b7 b8 b9 b10 b11 b12 b13 b14 b15 rest h
    simp only [parse_pdu]
    rw [List.take_of_length_le (by omega)]

/-- C5 amended witness: 17 buffered bytes against a declared length of 32
yield a PDU whose body is the single byte after the header. -/
theorem incomplete_frame_not_detected_witness :
    parse_pdu [0, 0, 0, 32, 0, 0, 0, 4, 0, 0, 0, 0, 0, 0, 0, 9, 255] =
      Except.ok (SMPPPDU.mk 4 0 9 [255]) :=
  incomplete_frame_not_detected.2 0 0 0 32 0 0 0 4 0 0 0 0 0 0 0 9 [255] (by decide)

/-- C6 counterexample: a `bind_transceiver` dispatched on an already bound
session is NOT rejected: the dispatcher produces a successful
`bind_transceiver_resp` with status 0 and keeps the session bound. -/
theorem rebind_not_rejected :
    dispatch_pdu (ConnState.mk true false) (SMPPPDU.mk 9 0 5 []) =
      (ConnState.mk true false, [SMPPPDU.mk 2147483657 0 5 systemIdBody]) := by
  decide

/-- C6 amended: a bind request on an already bound session is handled
exactly as on an unbound one — the bound check is absent, the
authentication stub accepts, the session stays (re)bound, and the matching
successful `_resp` with status 0 and the server system id body is
produced. -/
theorem rebind_succeeds (s : ConnState) (pdu : SMPPPDU) (hb : s.bound = true)
    (h : pdu.command_id = cmd "bind_receiver" ∨
         pdu.command_id = cmd "bind_transmitter" ∨
         pdu.command_id = cmd "bind_transceiver") :
    dispatch_pdu s pdu = (ConnState.mk true s.closed,
      [SMPPPDU.mk (respCommandId pdu.command_id) 0 pdu.sequence_number systemIdBody]) := by
  rcases h with h | h | h <;>
    simp [dispatch_pdu, handle_bind, authenticate, respCommandId, h,
      cmd_bind_receiver, cmd_bind_transmitter, cmd_bind_transceiver]

/-- C6 amended witness: re-binding a bound session with `bind_receiver`. -/
theorem rebind_succeeds_witness :
    dispatch_pdu (ConnState.mk true false) (SMPPPDU.mk 1 0 8 []) =
      (ConnState.mk true false,
        [SMPPPDU.mk (respCommandId 1) 0 8 systemIdBody]) :=
  rebind_succeeds (ConnState.mk true false) (SMPPPDU.mk 1 0 8 []) rfl
    (Or.inl (by decide))

/-- C7: a `bind_transceiver` on an unbound session, accepted by the
authentication capability, binds the session and produces exactly one
`bind_transceiver_resp` with status 0, the echoed sequence number, and the
server system id as a null-terminated body. -/
theorem bind_transceiver_accepted (s : ConnState) (pdu : SMPPPDU)
    (hb : s.bound = false) (hc : pdu.command_id = cmd "bind_transceiver")
    (ha : authenticate pdu = true) :
    dispatch_pdu s pdu = (ConnState.mk true s.closed,
      [SMPPPDU.mk (cmd "bind_transceiver_resp") 0 pdu.sequence_number systemIdBody]) := by
  simp [dispatch_pdu, handle_bind, authenticate, respCommandId, hc,
    cmd_bind_receiver, cmd_bind_transmitter, cmd_bind_transceiver,
    cmd_bind_transceiver_resp]

/-- C7 witness: concrete transceiver bind with sequence number 3. -/
theorem bind_transceiver_accepted_witness :
    dispatch_pdu initState (SMPPPDU.mk 9 0 3 [97, 0]) =
      (ConnState.mk true false,
        [SMPPPDU.mk (cmd "bind_transceiver_resp") 0 3 systemIdBody]) :=
  bind_transceiver_accepted initState (SMPPPDU.mk 9 0 3 [97, 0]) rfl
    (by decide) rfl

/-- C8: an `unbind` on a bound session produces exactly one `unbind_resp`
with status 0 echoing the sequence number, the transport is closed, and no
further chunk delivered to that connection is processed or answered. -/
theorem unbind_responds_and_closes (s : ConnState) (pdu : SMPPPDU)
    (hb : s.bound = true) (hc : pdu.command_id = cmd "unbind") :
    dispatch_pdu s pdu = (ConnState.mk false true,
      [SMPPPDU.mk (cmd "unbind_resp") 0 pdu.sequence_number []]) ∧
    ∀ chunks : List (List Nat),
      connRun (ConnState.mk false true) chunks = (ConnState.mk false true, []) := by
  constructor
  · simp [dispatch_pdu, handle_unbind, hc, cmd_bind_receiver,
      cmd_bind_transmitter, cmd_bind_transceiver, cmd_submit_sm, cmd_unbind,
      cmd_unbind_resp]
  · intro chunks
    cases chunks with
    | nil => rfl
    | cons d ds => simp [connRun]

/-- C8 witness: concrete unbind with sequence number 6, then one more
chunk that goes unanswered. -/
theorem unbind_responds_and_closes_witness :
    dispatch_pdu (ConnState.mk true false) (SMPPPDU.mk 6 0 6 []) =
      (ConnState.mk false true, [SMPPPDU.mk (cmd "unbind_resp") 0 6 []]) ∧
    connRun (ConnState.mk false true) [[0, 0, 0, 16]] = (ConnState.mk false true, []) := by
  have h := unbind_responds_and_closes (ConnState.mk true false)
    (SMPPPDU.mk 6 0 6 []) rfl (by decide)
  exact ⟨h.1, h.2 [[0, 0, 0, 16]]⟩

/-- C9: a PDU whose command id is none of the five dispatched request ids
is answered by exactly one `generic_nack` with status 0x03 echoing the
sequence number, with the session state returned unchanged. -/
theorem unknown_command_nack (s : ConnState) (pdu : SMPPPDU)
    (h1 : pdu.command_id ≠ cmd "bind_receiver")
    (h2 : pdu.command_id ≠ cmd "bind_transmitter")
    (h3 : pdu.command_id ≠ cmd "bind_transceiver")
    (h4 : pdu.command_id ≠ cmd "submit_sm")
    (h5 : pdu.command_id ≠ cmd "unbind") :
    dispatch_pdu s pdu =
      (s, [SMPPPDU.mk (cmd "generic_nack") 0x00000003 pdu.sequence_number []]) := by
  simp [dispatch_pdu, send_generic_nack, h1, h2, h3, h4, h5]

/-- C9 witness: command id 0x80000005 (`deliver_sm_resp`) is not a
dispatched request id and draws the nack. -/
theorem unknown_command_nack_witness :
    dispatch_pdu initState (SMPPPDU.mk 2147483653 0 12 []) =
      (initState, [SMPPPDU.mk (cmd "generic_nack") 0x00000003 12 []]) :=
  unknown_command_nack initState (SMPPPDU.mk 2147483653 0 12 [])
    (by decide) (by decide) (by decide) (by decide) (by decide)

/-- C10: `deliver_sm` is present in the command registry, yet in every
session state a `deliver_sm` PDU falls through to the unknown-command
branch: it is answered by `generic_nack` with status 0x03 echoing the
sequence number, the state unchanged, because no handler exists for it. -/
theorem deliver_sm_gets_unknown_nack :
    SMPP_COMMANDS.lookup "deliver_sm" = some 0x00000005 ∧
    ∀ (s : ConnState) (pdu : SMPPPDU), pdu.command_id = cmd "deliver_sm" →
      dispatch_pdu s pdu =
        (s, [SMPPPDU.mk (cmd "generic_nack") 0x00000003 pdu.sequence_number []]) := by
  constructor
  · decide
  · intro s pdu hc
    simp [dispatch_pdu, send_generic_nack, hc, cmd_bind_receiver,
      cmd_bind_transmitter, cmd_bind_transceiver, cmd_submit_sm, cmd_unbind,
      cmd_deliver_sm]

/-- C10 witness: a concrete `deliver_sm` on a bound session. -/
theorem deliver_sm_gets_unknown_nack_witness :
    dispatch_pdu (ConnState.mk true false) (SMPPPDU.mk 5 0 21 [1]) =
      (ConnState.mk true false,
        [SMPPPDU.mk (cmd "generic_nack") 0x00000003 21 []]) :=
  deliver_sm_gets_unknown_nack.2 (ConnState.mk true false)
    (SMPPPDU.mk 5 0 21 [1]) (by decide)
